import Mathlib

/-!
Shallow embedding of `showdown/game.py`: an arbiter refereeing a turn-based
duel between two external contestant programs.  Pure game logic (command
interpretation, turn resolution, tie-break) is translated into executable
Lean definitions; the I/O layer (subprocess reads) is modelled by an explicit
outcome type fed to the functions that consume it.
-/

/-- Time budget for the startup name read (`STARTUP_TIME = 10` in game.py). -/
def STARTUP_TIME : Nat := 10

/-- Per-turn time budget (`TURN_TIME = 1` in game.py). -/
def TURN_TIME : Nat := 1

/-- Turn limit (`TOTAL_TURNS = 100` in game.py). -/
def TOTAL_TURNS : Nat := 100

/-- Ammunition cap (`MAX_BULLETS = 6` in game.py).  Bullets are Python ints,
so we model them as `Int`. -/
def MAX_BULLETS : Int := 6

/-- Python `str.strip()` on a character list: drop whitespace from both ends. -/
def stripList (l : List Char) : List Char :=
  ((l.dropWhile Char.isWhitespace).reverse.dropWhile Char.isWhitespace).reverse

/-- Python `str.strip()`: remove leading and trailing whitespace.  Used both
by `Contestant.read` (on the decoded line) and by `Contestant.ask` (again,
idempotently, before the enum lookup). -/
def pyStrip (s : String) : String :=
  ⟨stripList s.data⟩

/-- The `Commands` enum of game.py: four contestant-issuable commands plus two
engine-internal signals. -/
inductive Commands where
  | STAND
  | SHOOT
  | DODGE
  | RELOAD
  | SHOOT_NO_BULLET
  | GAME_OVER
deriving DecidableEq, Repr

/-- `Commands.value`: the textual token of each enum member, exactly the
`value` strings of the Python enum. -/
def Commands.value : Commands → String
  | .STAND => "stand"
  | .SHOOT => "shoot"
  | .DODGE => "dodge"
  | .RELOAD => "reload"
  | .SHOOT_NO_BULLET => "shoot_no_bullet"
  | .GAME_OVER => "game_over"

/-- The enum constructor lookup `Commands(s)` of Python: returns the member
whose value is `s`, or `none` where Python raises `ValueError`.  Note that the
lookup succeeds for all six values, including the two internal signals. -/
def commandsOfString (s : String) : Option Commands :=
  if s = "stand" then some .STAND
  else if s = "shoot" then some .SHOOT
  else if s = "dodge" then some .DODGE
  else if s = "reload" then some .RELOAD
  else if s = "shoot_no_bullet" then some .SHOOT_NO_BULLET
  else if s = "game_over" then some .GAME_OVER
  else none

/-- Per-contestant game state tracked by the `Contestant` class of game.py
once it has passed setup: display name, ammunition (`self.bullets`), dodge
counter (`self.num_dodges`) and the last resolved command
(`self.latest_command`, initially Python `None`). -/
structure Contestant where
  name : String
  bullets : Int
  num_dodges : Nat
  latest_command : Option Commands
deriving DecidableEq, Repr

/-- State of a freshly constructed contestant (`__init__`): one bullet, no
dodges, no command yet. -/
def initialContestant (name : String) : Contestant :=
  { name := name, bullets := 1, num_dodges := 0, latest_command := none }

/-- Lines 147-168 of `Contestant.ask`: the state-mutating interpretation of a
command that passed the validity filter.  `if self.bullets:` is Python int
truthiness, i.e. `bullets ≠ 0`. -/
def interpretValid (command : Commands) (c : Contestant) : Commands × Contestant :=
  if command = .SHOOT then
    if c.bullets ≠ 0 then (.SHOOT, { c with bullets := c.bullets - 1 })
    else (.SHOOT_NO_BULLET, c)
  else if command = .RELOAD then
    if c.bullets = MAX_BULLETS then (.RELOAD, c)
    else (.RELOAD, { c with bullets := c.bullets + 1 })
  else if command = .DODGE then
    (.DODGE, { c with num_dodges := c.num_dodges + 1 })
  else (command, c)

/-- Lines 133-168 of `Contestant.ask`: given the text line obtained from
`read`, strip it, look it up in the enum (`ValueError` → STAND), reject
anything outside {SHOOT, DODGE, RELOAD} as STAND (this is how the literal
token `stand` resolves, and how `shoot_no_bullet`/`game_over` sent by a
contestant are neutralised), then apply the state effects. -/
def askLine (line : String) (c : Contestant) : Commands × Contestant :=
  match commandsOfString (pyStrip line) with
  | none => (.STAND, c)
  | some command =>
    if command ∈ [Commands.SHOOT, Commands.DODGE, Commands.RELOAD] then
      interpretValid command c
    else (.STAND, c)

/-- The possible outcomes of the timed per-turn read in `Contestant.ask`:
the liveness check fails (`not self.is_alive()`), `read` raises `EOFError`,
`read` raises `TimeoutError` after `TURN_TIME`, the dequeued bytes are not
valid UTF-8 so `line.decode("utf-8")` inside `read` raises
`UnicodeDecodeError`, or a decoded line arrives. -/
inductive ReadOutcome where
  | dead
  | eofError
  | timeoutError
  | invalidBytes
  | line (s : String)
deriving DecidableEq, Repr

/-- An exception that escapes `Contestant.ask` uncaught. -/
inductive AskError where
  | unicodeDecodeError
deriving DecidableEq, Repr

/-- `Contestant.ask` (lines 111-168): classify the read outcome into a
resolved command, updating contestant state only on a valid line.  The first
`try` catches only `EOFError` and `TimeoutError`, and the `except ValueError`
guards only the later `Commands(...)` lookup, so a `UnicodeDecodeError`
raised by `read`'s decode step propagates out of `ask` uncaught — modelled
as `Except.error`. -/
def ask (outcome : ReadOutcome) (c : Contestant) :
    Except AskError (Commands × Contestant) :=
  match outcome with
  | .dead => .ok (.STAND, c)
  | .eofError => .ok (.STAND, c)
  | .timeoutError => .ok (.GAME_OVER, c)
  | .invalidBytes => .error .unicodeDecodeError
  | .line s => .ok (askLine s c)

/-- Which of the two contestant slots of the state dict a value refers to
(`state["a"]` / `state["b"]`).  The Python code stores the contestant object
itself and later recovers the key by identity (`state["winner"] is
state["a"]`); we store the key directly. -/
inductive Player where
  | a
  | b
deriving DecidableEq, Repr

/-- The mutable match-state dict of game.py: turn counter, the two
contestants, and the optional `"winner"` / `"description"` keys (absent keys
modelled as `none`). -/
structure MatchState where
  num_turn : Nat
  a : Contestant
  b : Contestant
  winner : Option Player
  description : Option String
deriving DecidableEq, Repr

/-- `state[key]` for a player key. -/
def MatchState.contestant (st : MatchState) : Player → Contestant
  | .a => st.a
  | .b => st.b

/-- Result of one call to `loop`: the updated state dict, the boolean the
function returns (`cont`), and the `tell` writes performed this turn as
(recipient, token) pairs. -/
structure LoopResult where
  state : MatchState
  cont : Bool
  sent : List (Player × String)
deriving DecidableEq, Repr

/-- The unprotected command set of `loop` (line 253): commands that do not
defend against an opposing SHOOT. -/
def unprotected : List Commands :=
  [Commands.SHOOT_NO_BULLET, Commands.RELOAD, Commands.STAND]

/-- Lines 242-271 of `loop`: resolution of a turn from the two already
resolved commands.  Forfeit check first (the `winner = list("ab")` removal
dance, `next(iter(winner), None)` = `head?`), then the shoot rule, otherwise
the opponent-command `tell`s, the turn-counter increment and the turn-limit
check. -/
def loopResolve (st : MatchState) (command_a command_b : Commands) : LoopResult :=
  if command_a = .GAME_OVER ∨ command_b = .GAME_OVER then
    let winnerList :=
      (if command_a = .GAME_OVER then [] else [Player.a]) ++
      (if command_b = .GAME_OVER then [] else [Player.b])
    let st :=
      match winnerList.head? with
      | some k => { st with winner := some k }
      | none => st
    { state := st, cont := false, sent := [] }
  else if command_a = .SHOOT ∧ command_b ∈ unprotected then
    { state := { st with winner := some .a }, cont := false, sent := [] }
  else if command_b = .SHOOT ∧ command_a ∈ unprotected then
    { state := { st with winner := some .b }, cont := false, sent := [] }
  else
    let sent := [(Player.a, command_b.value), (Player.b, command_a.value)]
    let st := { st with num_turn := st.num_turn + 1 }
    if st.num_turn ≥ TOTAL_TURNS then { state := st, cont := false, sent := sent }
    else { state := st, cont := true, sent := sent }

/-- The whole of `loop` (lines 236-271): ask both contestants (A first, then
B, each classified from its own read outcome), record their latest commands,
then resolve the turn.  An exception escaping either `ask` propagates raw
out of `loop` (B is not queried if A's query raised). -/
def loop (st : MatchState) (outcome_a outcome_b : ReadOutcome) :
    Except AskError LoopResult :=
  match ask outcome_a st.a with
  | .error e => .error e
  | .ok (command_a, a') =>
    let a' := { a' with latest_command := some command_a }
    match ask outcome_b st.b with
    | .error e => .error e
    | .ok (command_b, b') =>
      let b' := { b' with latest_command := some command_b }
      .ok (loopResolve { st with a := a', b := b' } command_a command_b)

/-- The per-contestant part of the snapshot dict built by
`write_to_ui_queue`. -/
structure ContestantSnapshot where
  name : String
  bullets : Int
  command : String
  num_dodges : Nat
deriving DecidableEq, Repr

/-- The snapshot dict `write_to_ui_queue` puts on the UI queue. -/
structure Snapshot where
  num_turn : Nat
  description : String
  a : ContestantSnapshot
  b : ContestantSnapshot
  winner_key : Option Player
deriving DecidableEq, Repr

/-- `write_to_ui_queue` (lines 273-301): build the snapshot.  When the state
carries no `"description"` key yet (match still running) the emitted
description is the literal placeholder `"un truc au pif"`.  Accessing
`latest_command.value` on Python `None` would raise `AttributeError`; that
impossible-in-context case is modelled as `none`. -/
def write_to_ui_queue (st : MatchState) : Option Snapshot :=
  match st.a.latest_command, st.b.latest_command with
  | some ca, some cb =>
    some
      { num_turn := st.num_turn
        description :=
          match st.description with
          | some d => d
          | none => "un truc au pif"
        a := { name := st.a.name, bullets := st.a.bullets,
               command := ca.value, num_dodges := st.a.num_dodges }
        b := { name := st.b.name, bullets := st.b.bullets,
               command := cb.value, num_dodges := st.b.num_dodges }
        winner_key := st.winner }
  | _, _ => none

/-- `finish` (lines 304-323): invoked when the match ends.  With no winner
assigned, compare dodge counts (`diff_dodges = a.num_dodges - b.num_dodges`
as a Python int): strictly fewer dodges wins, ties go to `random.choice`,
modelled by the explicit `coin` argument.  With a winner already assigned,
only the description is produced. -/
def finish (st : MatchState) (coin : Player) : MatchState :=
  match st.winner with
  | none =>
    let diff_dodges : Int := (st.a.num_dodges : Int) - (st.b.num_dodges : Int)
    if diff_dodges ≠ 0 then
      let winner : Player := if diff_dodges < 0 then .a else .b
      { st with
        winner := some winner
        description := some ((st.contestant winner).name ++
          " wins by having dodged " ++ toString diff_dodges.natAbs ++ " times less") }
    else
      { st with
        winner := some coin
        description := some ("Toss a coin: " ++ (st.contestant coin).name ++ " wins.") }
  | some w =>
    { st with description := some ((st.contestant w).name ++ " wins") }

/-- Outcome of the single startup read attempted by `read_name`. -/
inductive StartupRead where
  | eofError
  | timeoutError
  | line (s : String)
deriving DecidableEq, Repr

/-- Startup-time view of a `Contestant`: invocation arguments, the `exited`
flag, and the `contestant_name` attribute.  `none` models the attribute never
having been set (spawn failure returns from `__init__` before the
assignment); `some none` models the attribute holding Python `None` (the
bare `return` paths of `read_name`); `some (some s)` a string. -/
structure StartupContestant where
  call_args : List String
  exited : Bool
  contestant_name : Option (Option String)
deriving DecidableEq, Repr

/-- `read_name` (lines 79-97): the value it returns (Python `None` on the
exception paths) and the resulting `exited` flag.  The decoded line is
already stripped by `read`; an empty line marks the contestant dead but the
empty string is still returned and assigned. -/
def read_name (r : StartupRead) : Option String × Bool :=
  match r with
  | .eofError => (none, true)
  | .timeoutError => (none, true)
  | .line s => (some s, s = "")

/-- `Contestant.__init__` at startup (lines 37-46): on spawn failure, return
before `read_name`, leaving `contestant_name` unset; otherwise assign
`contestant_name = read_name()` and keep the exit flag it produced. -/
def startupContestant (call_args : List String) (spawn_ok : Bool)
    (r : StartupRead) : StartupContestant :=
  if spawn_ok then
    let (nm, dead) := read_name r
    { call_args := call_args, exited := dead, contestant_name := some nm }
  else
    { call_args := call_args, exited := true, contestant_name := none }

/-- The `name` property (lines 48-51): `getattr(self, "contestant_name",
" ".join(self.call_args))` — the join fallback fires only when the attribute
was never set; an attribute holding Python `None` (`none` here) is returned
as-is. -/
def StartupContestant.name (c : StartupContestant) : Option String :=
  match c.contestant_name with
  | some v => v
  | none => some (String.intercalate " " c.call_args)

/-- Folding the per-turn command interpretation over a sequence of raw input
lines: the contestant state after a whole match worth of commands. -/
def runCommands (c : Contestant) (lines : List String) : Contestant :=
  lines.foldl (fun c s => (askLine s c).2) c

/-! ### Helper lemmas -/

lemma pyStrip_value (cmd : Commands) : pyStrip cmd.value = cmd.value := by
  cases cmd <;> decide

lemma commandsOfString_value (cmd : Commands) :
    commandsOfString cmd.value = some cmd := by
  cases cmd <;> decide

lemma askLine_value (cmd : Commands) (c : Contestant) :
    askLine cmd.value c =
      if cmd ∈ [Commands.SHOOT, Commands.DODGE, Commands.RELOAD] then
        interpretValid cmd c
      else (.STAND, c) := by
  simp [askLine, pyStrip_value, commandsOfString_value]

lemma askLine_step_facts (s : String) (c : Contestant) :
    ((askLine s c).1 = .RELOAD → c.bullets ≤ (askLine s c).2.bullets) ∧
    ((askLine s c).1 = .SHOOT → (askLine s c).2.bullets ≤ c.bullets) ∧
    c.num_dodges ≤ (askLine s c).2.num_dodges ∧
    (0 ≤ c.bullets → 0 ≤ (askLine s c).2.bullets) ∧
    (c.bullets ≤ MAX_BULLETS → (askLine s c).2.bullets ≤ MAX_BULLETS) := by
  unfold askLine
  rcases hc : commandsOfString (pyStrip s) with _ | cmd
  · simp
  · cases cmd <;> simp [interpretValid, MAX_BULLETS] <;> split_ifs <;>
      simp_all <;> omega

lemma runCommands_bullets_bounds (lines : List String) (c : Contestant)
    (h0 : 0 ≤ c.bullets) (h6 : c.bullets ≤ MAX_BULLETS) :
    0 ≤ (runCommands c lines).bullets ∧
      (runCommands c lines).bullets ≤ MAX_BULLETS := by
  induction lines generalizing c with
  | nil => exact ⟨h0, h6⟩
  | cons s rest ih =>
    have hf := askLine_step_facts s c
    exact ih ((askLine s c).2) (hf.2.2.2.1 h0) (hf.2.2.2.2 h6)

/-! ### Claims -/

/-- C2: for every contestant and every valid command token, command
interpretation has exactly the specified state effects and results: SHOOT
with ammunition > 0 decrements and resolves to SHOOT; SHOOT with no
ammunition is a no-op resolving to SHOOT_NO_BULLET; RELOAD saturates at
MAX_BULLETS and otherwise increments; DODGE bumps the dodge counter; STAND
changes nothing. -/
theorem C2_command_interpretation (c : Contestant) :
    (0 < c.bullets →
      askLine "shoot" c = (.SHOOT, { c with bullets := c.bullets - 1 })) ∧
    (c.bullets = 0 → askLine "shoot" c = (.SHOOT_NO_BULLET, c)) ∧
    (c.bullets = MAX_BULLETS → askLine "reload" c = (.RELOAD, c)) ∧
    (c.bullets < MAX_BULLETS →
      askLine "reload" c = (.RELOAD, { c with bullets := c.bullets + 1 })) ∧
    askLine "dodge" c = (.DODGE, { c with num_dodges := c.num_dodges + 1 }) ∧
    askLine "stand" c = (.STAND, c) := by
  have hsh := askLine_value .SHOOT c
  have hre := askLine_value .RELOAD c
  have hdo := askLine_value .DODGE c
  have hst := askLine_value .STAND c
  simp only [Commands.value] at hsh hre hdo hst
  refine ⟨fun h => ?_, fun h => ?_, fun h => ?_, fun h => ?_, ?_, ?_⟩ <;>
    simp_all [interpretValid, MAX_BULLETS] <;> omega

/-- Witness for C2 at concrete contestant states. -/
theorem C2_witness :
    askLine "shoot" (initialContestant "x") =
      (.SHOOT, { initialContestant "x" with bullets := 0 }) ∧
    askLine "shoot" { initialContestant "x" with bullets := 0 } =
      (.SHOOT_NO_BULLET, { initialContestant "x" with bullets := 0 }) ∧
    askLine "reload" { initialContestant "x" with bullets := 6 } =
      (.RELOAD, { initialContestant "x" with bullets := 6 }) ∧
    askLine "reload" (initialContestant "x") =
      (.RELOAD, { initialContestant "x" with bullets := 2 }) := by
  refine ⟨?_, ?_, ?_, ?_⟩
  · exact ((C2_command_interpretation (initialContestant "x")).1 (by decide)).trans
      (by decide)
  · exact (C2_command_interpretation
      { initialContestant "x" with bullets := 0 }).2.1 (by decide)
  · exact (C2_command_interpretation
      { initialContestant "x" with bullets := 6 }).2.2.1 (by decide)
  · exact ((C2_command_interpretation (initialContestant "x")).2.2.2.1
      (by decide)).trans (by decide)

/-- C4: the claim says every per-turn read outcome is resolved locally into
a command value, never into a raised exception.  True for the dead-process,
EndOfStream, timeout and invalid-token outcomes (first four conjuncts, over
an arbitrary contestant), but false for a line of invalid UTF-8: the
`UnicodeDecodeError` raised by `read`'s decode step is caught by neither of
`ask`'s except clauses (they catch `EOFError`/`TimeoutError`; the
`except ValueError` guards only the `Commands(...)` lookup), so the Turn
Engine receives the raw exception — from either contestant's query — where
the spec demands decode failures be treated like InvalidCommand. -/
theorem C4_decode_failure (c : Contestant) (st : MatchState) :
    ask .dead c = .ok (.STAND, c) ∧
    ask .eofError c = .ok (.STAND, c) ∧
    ask .timeoutError c = .ok (.GAME_OVER, c) ∧
    ask (.line "bang bang") c = .ok (.STAND, c) ∧
    ask .invalidBytes c = .error .unicodeDecodeError ∧
    loop st .invalidBytes .timeoutError = .error .unicodeDecodeError ∧
    loop st .timeoutError .invalidBytes = .error .unicodeDecodeError := by
  have hbang : commandsOfString (pyStrip "bang bang") = none := by decide
  refine ⟨rfl, rfl, rfl, ?_, rfl, rfl, rfl⟩
  simp [ask, askLine, hbang]

/-- C3: from the initial state (1 bullet, 0 dodges), ammunition stays within
[0, MAX_BULLETS] for every command sequence; per step, a turn resolving to
RELOAD never decreases ammunition, one resolving to SHOOT never increases
it, and the dodge count never decreases. -/
theorem C3_ammo_dodge_invariants (nm : String) (lines : List String)
    (s : String) (c : Contestant) :
    0 ≤ (runCommands (initialContestant nm) lines).bullets ∧
    (runCommands (initialContestant nm) lines).bullets ≤ MAX_BULLETS ∧
    ((askLine s c).1 = .RELOAD → c.bullets ≤ (askLine s c).2.bullets) ∧
    ((askLine s c).1 = .SHOOT → (askLine s c).2.bullets ≤ c.bullets) ∧
    c.num_dodges ≤ (askLine s c).2.num_dodges := by
  have hb := runCommands_bullets_bounds lines (initialContestant nm)
    (by simp [initialContestant]) (by simp [initialContestant, MAX_BULLETS])
  have hf := askLine_step_facts s c
  exact ⟨hb.1, hb.2, hf.1, hf.2.1, hf.2.2.1⟩

/-- Witness for C3: concrete run and concrete RELOAD / SHOOT steps. -/
theorem C3_witness :
    0 ≤ (runCommands (initialContestant "x") ["shoot", "reload", "dodge"]).bullets ∧
    (initialContestant "x").bullets ≤
      (askLine "reload" (initialContestant "x")).2.bullets ∧
    (askLine "shoot" (initialContestant "x")).2.bullets ≤
      (initialContestant "x").bullets := by
  refine ⟨(C3_ammo_dodge_invariants "x" ["shoot", "reload", "dodge"] "reload"
    (initialContestant "x")).1, ?_, ?_⟩
  · exact (C3_ammo_dodge_invariants "x" [] "reload"
      (initialContestant "x")).2.2.1 (by decide)
  · exact (C3_ammo_dodge_invariants "x" [] "shoot"
      (initialContestant "x")).2.2.2.1 (by decide)

/-- A concrete mid-match contestant used by concrete-input theorems. -/
def sampleContestant (nm : String) : Contestant :=
  { name := nm, bullets := 1, num_dodges := 0, latest_command := some .STAND }

/-- A concrete running match state (no winner, no description yet) at a given
turn number. -/
def sampleState (n : Nat) : MatchState :=
  { num_turn := n, a := sampleContestant "alpha", b := sampleContestant "beta",
    winner := none, description := none }

/-- C5 refuting part is absent: confirmed.  For every turn where at least one
resolved command is GAME_OVER the match ends immediately; exactly one
GAME_OVER makes the other side the winner; a double GAME_OVER leaves the
winner slot untouched (resolution deferred to `finish`). -/
theorem C5_game_over (st : MatchState) (ca cb : Commands)
    (h : ca = .GAME_OVER ∨ cb = .GAME_OVER) :
    (loopResolve st ca cb).cont = false ∧
    (ca = .GAME_OVER → cb ≠ .GAME_OVER →
      (loopResolve st ca cb).state.winner = some Player.b) ∧
    (cb = .GAME_OVER → ca ≠ .GAME_OVER →
      (loopResolve st ca cb).state.winner = some Player.a) ∧
    (ca = .GAME_OVER → cb = .GAME_OVER →
      (loopResolve st ca cb).state.winner = st.winner) := by
  rcases h with h | h <;> subst h <;>
    refine ⟨?_, fun h1 h2 => ?_, fun h1 h2 => ?_, fun h1 h2 => ?_⟩ <;>
    simp_all [loopResolve]

/-- Witness for C5: a single forfeit by A at a concrete state makes B the
winner and ends the match. -/
theorem C5_witness :
    (loopResolve (sampleState 0) .GAME_OVER .STAND).cont = false ∧
    (loopResolve (sampleState 0) .GAME_OVER .STAND).state.winner =
      some Player.b := by
  have h := C5_game_over (sampleState 0) .GAME_OVER .STAND (Or.inl rfl)
  exact ⟨h.1, h.2.1 rfl (by decide)⟩

/-- C1 counterexample: at turn 99 a SHOOT vs SHOOT turn (neither command
GAME_OVER) assigns no winner, yet the match does NOT continue — the
incremented turn counter reaches TOTAL_TURNS and `loop` returns False. -/
theorem C1_counterexample :
    Commands.SHOOT ≠ Commands.GAME_OVER ∧
    (loopResolve (sampleState 99) .SHOOT .SHOOT).state.winner = none ∧
    (loopResolve (sampleState 99) .SHOOT .SHOOT).cont = false := by decide

/-- C1 (amended): with neither resolved command GAME_OVER, a SHOOT against an
unprotected command wins for the shooter and ends the match immediately;
SHOOT vs SHOOT and SHOOT vs DODGE assign no winner and the match continues
unless the incremented turn counter has reached TOTAL_TURNS. -/
theorem C1_shoot_resolution (st : MatchState) (ca cb : Commands)
    (ha : ca ≠ .GAME_OVER) (hb : cb ≠ .GAME_OVER) :
    (ca = .SHOOT → cb ∈ unprotected →
      (loopResolve st ca cb).state.winner = some Player.a ∧
      (loopResolve st ca cb).cont = false) ∧
    (cb = .SHOOT → ca ∈ unprotected →
      (loopResolve st ca cb).state.winner = some Player.b ∧
      (loopResolve st ca cb).cont = false) ∧
    ((ca = .SHOOT ∧ (cb = .SHOOT ∨ cb = .DODGE)) ∨
      (cb = .SHOOT ∧ (ca = .SHOOT ∨ ca = .DODGE)) →
      (loopResolve st ca cb).state.winner = st.winner ∧
      (loopResolve st ca cb).state.num_turn = st.num_turn + 1 ∧
      ((loopResolve st ca cb).cont = true ↔ st.num_turn + 1 < TOTAL_TURNS)) := by
  cases ca <;> cases cb <;>
    simp_all [loopResolve, unprotected, TOTAL_TURNS] <;>
    split_ifs <;> simp_all <;> omega

/-- Witness for C1: SHOOT vs STAND at a concrete state makes A the winner and
ends the match. -/
theorem C1_witness :
    (loopResolve (sampleState 0) .SHOOT .STAND).state.winner = some Player.a ∧
    (loopResolve (sampleState 0) .SHOOT .STAND).cont = false := by
  have h := C1_shoot_resolution (sampleState 0) .SHOOT .STAND (by decide) (by decide)
  exact h.1 rfl (by decide)

/-- C10 counterexample: the non-decisive STAND vs STAND turn at turn 99
increments the turn counter (to TOTAL_TURNS) although the match ends on that
turn — so the counter is not incremented only on turns that continue play. -/
theorem C10_counterexample :
    (loopResolve (sampleState 99) .STAND .STAND).state.winner = none ∧
    (loopResolve (sampleState 99) .STAND .STAND).state.num_turn =
      (sampleState 99).num_turn + 1 ∧
    (loopResolve (sampleState 99) .STAND .STAND).cont = false := by decide

/-- C10 (amended): the turn counter is incremented exactly on non-decisive
turns — on a turn ending via forfeit (GAME_OVER) or a decisive shot the
engine returns before the increment — while the non-decisive turn that
reaches the turn limit is itself counted although it ends play. -/
theorem C10_turn_counter (st : MatchState) (ca cb : Commands) :
    ((ca = .GAME_OVER ∨ cb = .GAME_OVER) →
      (loopResolve st ca cb).state.num_turn = st.num_turn ∧
      (loopResolve st ca cb).cont = false) ∧
    (¬(ca = .GAME_OVER ∨ cb = .GAME_OVER) →
      ((ca = .SHOOT ∧ cb ∈ unprotected) ∨ (cb = .SHOOT ∧ ca ∈ unprotected)) →
      (loopResolve st ca cb).state.num_turn = st.num_turn ∧
      (loopResolve st ca cb).cont = false) ∧
    (¬(ca = .GAME_OVER ∨ cb = .GAME_OVER) →
      ¬((ca = .SHOOT ∧ cb ∈ unprotected) ∨ (cb = .SHOOT ∧ ca ∈ unprotected)) →
      (loopResolve st ca cb).state.num_turn = st.num_turn + 1) := by
  cases ca <;> cases cb <;>
    simp_all [loopResolve, unprotected] <;> split_ifs <;> simp_all

/-- Witness for C10: a decisive shot leaves the counter alone, a mutual STAND
increments it. -/
theorem C10_witness :
    (loopResolve (sampleState 0) .SHOOT .STAND).state.num_turn =
      (sampleState 0).num_turn ∧
    (loopResolve (sampleState 0) .STAND .STAND).state.num_turn =
      (sampleState 0).num_turn + 1 := by
  refine ⟨((C10_turn_counter (sampleState 0) .SHOOT .STAND).2.1
    (by decide) (by decide)).1, ?_⟩
  exact (C10_turn_counter (sampleState 0) .STAND .STAND).2.2
    (by decide) (by decide)

/-- C6: whenever the match ends with no winner assigned, the contestant with
strictly fewer dodges wins, with a description citing the absolute dodge
difference; on equal dodge counts the winner is the random draw (`coin`),
with a coin-toss description.  The three cases are mutually exclusive and
exhaustive, and the result carries both winner and description. -/
theorem C6_tiebreak (st : MatchState) (coin : Player) (h : st.winner = none) :
    (st.a.num_dodges < st.b.num_dodges →
      (finish st coin).winner = some Player.a ∧
      (finish st coin).description = some (st.a.name ++
        " wins by having dodged " ++
        toString (st.b.num_dodges - st.a.num_dodges) ++ " times less")) ∧
    (st.b.num_dodges < st.a.num_dodges →
      (finish st coin).winner = some Player.b ∧
      (finish st coin).description = some (st.b.name ++
        " wins by having dodged " ++
        toString (st.a.num_dodges - st.b.num_dodges) ++ " times less")) ∧
    (st.a.num_dodges = st.b.num_dodges →
      (finish st coin).winner = some coin ∧
      (finish st coin).description = some ("Toss a coin: " ++
        (st.contestant coin).name ++ " wins.")) := by
  unfold finish
  rw [h]
  refine ⟨fun hlt => ?_, fun hlt => ?_, fun heq => ?_⟩
  · have hd : ¬((st.a.num_dodges : Int) - (st.b.num_dodges : Int) = 0) := by omega
    have hneg : ((st.a.num_dodges : Int) - (st.b.num_dodges : Int)) < 0 := by omega
    have habs : ((st.a.num_dodges : Int) - (st.b.num_dodges : Int)).natAbs =
        st.b.num_dodges - st.a.num_dodges := by omega
    simp [hd, hneg, habs, MatchState.contestant]
  · have hd : ¬((st.a.num_dodges : Int) - (st.b.num_dodges : Int) = 0) := by omega
    have hneg : ¬(((st.a.num_dodges : Int) - (st.b.num_dodges : Int)) < 0) := by
      omega
    have habs : ((st.a.num_dodges : Int) - (st.b.num_dodges : Int)).natAbs =
        st.a.num_dodges - st.b.num_dodges := by omega
    simp [hd, hneg, habs, MatchState.contestant]
  · have hd : (st.a.num_dodges : Int) - (st.b.num_dodges : Int) = 0 := by omega
    simp [hd]

/-- A concrete exhausted match state where A dodged strictly less than B. -/
def sampleDodgeState : MatchState :=
  { num_turn := 100
    a := sampleContestant "alpha"
    b := { sampleContestant "beta" with num_dodges := 2 }
    winner := none, description := none }

/-- Witness for C6: A dodged 0 times, B dodged 2 times, so A wins with the
difference cited; the coin argument is not followed. -/
theorem C6_witness :
    (finish sampleDodgeState .b).winner = some Player.a ∧
    (finish sampleDodgeState .b).description =
      some "alpha wins by having dodged 2 times less" := by
  have h := (C6_tiebreak sampleDodgeState .b rfl).1 (by decide)
  exact ⟨h.1, h.2.trans (by decide)⟩

/-- C7 counterexample: the arbiter may write the token `shoot_no_bullet` to a
contestant, but echoing it back through the command interpretation yields
STAND, not SHOOT_NO_BULLET (the validity filter rejects it). -/
theorem C7_counterexample :
    (askLine (Commands.value .SHOOT_NO_BULLET) (sampleContestant "alpha")).1 =
      Commands.STAND ∧
    Commands.STAND ≠ Commands.SHOOT_NO_BULLET := by decide

/-- C7 (amended): of the five tokens the arbiter writes, `stand`, `dodge` and
`reload` round-trip through the command interpretation for every contestant
state; `shoot` round-trips exactly when the echoing contestant has
ammunition (resolving to SHOOT_NO_BULLET otherwise); `shoot_no_bullet` is
rejected by the validity filter and resolves to STAND. -/
theorem C7_roundtrip (c : Contestant) :
    (askLine (Commands.value .STAND) c).1 = .STAND ∧
    (askLine (Commands.value .DODGE) c).1 = .DODGE ∧
    (askLine (Commands.value .RELOAD) c).1 = .RELOAD ∧
    (c.bullets ≠ 0 → (askLine (Commands.value .SHOOT) c).1 = .SHOOT) ∧
    (c.bullets = 0 → (askLine (Commands.value .SHOOT) c).1 = .SHOOT_NO_BULLET) ∧
    (askLine (Commands.value .SHOOT_NO_BULLET) c).1 = .STAND := by
  refine ⟨?_, ?_, ?_, fun h => ?_, fun h => ?_, ?_⟩ <;>
    simp_all [askLine_value, interpretValid]
  all_goals split_ifs <;> simp_all

/-- Witness for C7 at concrete contestant states with and without a bullet. -/
theorem C7_witness :
    (askLine (Commands.value .SHOOT) (sampleContestant "alpha")).1 = .SHOOT ∧
    (askLine (Commands.value .SHOOT)
      { sampleContestant "alpha" with bullets := 0 }).1 = .SHOOT_NO_BULLET ∧
    (askLine (Commands.value .DODGE) (sampleContestant "alpha")).1 = .DODGE := by
  refine ⟨(C7_roundtrip (sampleContestant "alpha")).2.2.2.1 (by decide),
    (C7_roundtrip { sampleContestant "alpha" with bullets := 0 }).2.2.2.2.1
      (by decide),
    (C7_roundtrip (sampleContestant "alpha")).2.1⟩

/-- C8 counterexample: a mid-match snapshot (turn 3, no winner, no
description yet) carries the literal placeholder "un truc au pif", which is
not the empty string the claim promises. -/
theorem C8_counterexample :
    (write_to_ui_queue (sampleState 3)).map Snapshot.description =
      some "un truc au pif" ∧
    "un truc au pif" ≠ "" := by decide

/-- C8 (amended): every per-turn snapshot emitted before the match ends (no
description set yet) carries the fixed placeholder description
"un truc au pif"; once the match has ended the snapshot carries the state's
final description verbatim. -/
theorem C8_snapshot_description (st : MatchState) (snap : Snapshot) :
    (st.description = none → write_to_ui_queue st = some snap →
      snap.description = "un truc au pif") ∧
    (∀ d, st.description = some d → write_to_ui_queue st = some snap →
      snap.description = d) := by
  constructor
  · intro hd hw
    unfold write_to_ui_queue at hw
    rcases ha : st.a.latest_command with _ | ca <;>
      rcases hb : st.b.latest_command with _ | cb <;>
        rw [ha, hb] at hw <;> simp at hw
    subst hw
    simp [hd]
  · intro d hd hw
    unfold write_to_ui_queue at hw
    rcases ha : st.a.latest_command with _ | ca <;>
      rcases hb : st.b.latest_command with _ | cb <;>
        rw [ha, hb] at hw <;> simp at hw
    subst hw
    simp [hd]

/-- The snapshot emitted at the concrete mid-match state `sampleState 3`. -/
def sampleSnapshot : Snapshot :=
  { num_turn := 3
    description := "un truc au pif"
    a := { name := "alpha", bullets := 1, command := "stand", num_dodges := 0 }
    b := { name := "beta", bullets := 1, command := "stand", num_dodges := 0 }
    winner_key := none }

/-- Witness for C8: the placeholder appears in the concrete mid-match
snapshot, and a concrete post-match description is passed through. -/
theorem C8_witness :
    sampleSnapshot.description = "un truc au pif" ∧
    ({ sampleSnapshot with description := "alpha wins" } : Snapshot).description =
      "alpha wins" := by
  refine ⟨(C8_snapshot_description (sampleState 3) sampleSnapshot).1 rfl
    (by decide), ?_⟩
  exact (C8_snapshot_description
    { sampleState 3 with description := some "alpha wins" }
    { sampleSnapshot with description := "alpha wins" }).2 "alpha wins" rfl
    (by decide)

/-- C9: the claim says a dead-at-startup contestant's display name falls back
to its invocation string when no name line was obtained.  True for the
spawn-failure path (attribute never set, `getattr` default fires), but on the
EndOfStream/Timeout startup-read paths `read_name`'s bare `return` assigns
Python `None` to `contestant_name`, which masks the `getattr` fallback: the
display name becomes `None`, not the invocation string — the code defeats
its own fallback. -/
theorem C9_startup_name_evaluation :
    (startupContestant ["./bot"] false .eofError).exited = true ∧
    (startupContestant ["./bot"] false .eofError).name = some "./bot" ∧
    (startupContestant ["./bot"] true .eofError).exited = true ∧
    (startupContestant ["./bot"] true .eofError).name = none ∧
    (startupContestant ["./bot"] true .timeoutError).name = none ∧
    (startupContestant ["./bot"] true (.line "")).exited = true ∧
    (startupContestant ["./bot"] true (.line "")).name = some "" := by decide

example : askLine "shoot" (initialContestant "x") =
    (.SHOOT, { initialContestant "x" with bullets := 0 }) := by decide
example : askLine "shoot" { initialContestant "x" with bullets := 0 } =
    (.SHOOT_NO_BULLET, { initialContestant "x" with bullets := 0 }) := by decide
example : askLine "stand" (initialContestant "x") = (.STAND, initialContestant "x") := by
  decide
example : askLine "shoot_no_bullet" (initialContestant "x") =
    (.STAND, initialContestant "x") := by decide
example : askLine "game_over" (initialContestant "x") =
    (.STAND, initialContestant "x") := by decide
example : askLine "banana" (initialContestant "x") = (.STAND, initialContestant "x") := by
  decide
example : askLine " reload " (initialContestant "x") =
    (.RELOAD, { initialContestant "x" with bullets := 2 }) := by decide
